import Mathlib

/-!
Shallow embedding of `lambda_function.py` from the bedrock-code-generator
repository, together with theorems checking the specified behaviour.

The module models Python runtime values with an inductive `PyVal`, models
exceptions with `PyErr`/`Except`, and treats the Bedrock inference service
as an oracle `Service` (a function from the submitted conversation to a
reply or a failure).  The two functions under scrutiny,
`generate_code_using_bedrock` and `lambda_handler`, are translated
statement by statement from the source; both additionally return the list
of conversations submitted to the inference service so that claims about
the number and content of service calls can be stated.
-/

namespace BedrockCodeGen

/-- A Python runtime value, covering the shapes that flow through
`lambda_function.py`: strings, ints, bools, None, lists and string-keyed
dicts. -/
inductive PyVal where
  | str (s : String)
  | int (n : Int)
  | bool (b : Bool)
  | none
  | list (xs : List PyVal)
  | dict (fields : List (String × PyVal))

/-- A Python exception, restricted to the kinds the embedded code can
raise or receive: botocore ClientError, KeyError, TypeError and
AttributeError. -/
inductive PyErr where
  | clientError (msg : String)
  | keyError (key : String)
  | typeError (msg : String)
  | attributeError (msg : String)
deriving DecidableEq

/-- Python `str(e)` for an exception: KeyError renders the repr of its
key, the other kinds carry their message. -/
def PyErr.toStr : PyErr → String
  | .clientError m => m
  | .keyError k => "\x27" ++ k ++ "\x27"
  | .typeError m => m
  | .attributeError m => m

/-- Python type name of a value, as it appears in error messages. -/
def PyVal.typeName : PyVal → String
  | .str _ => "str"
  | .int _ => "int"
  | .bool _ => "bool"
  | .none => "NoneType"
  | .list _ => "list"
  | .dict _ => "dict"

/-- Lookup in a string-keyed dict (first matching key; Python dicts have
unique keys, so first-match lookup coincides with dict lookup). -/
def dictGet (fields : List (String × PyVal)) (key : String) : Option PyVal :=
  match fields with
  | [] => Option.none
  | (k, v) :: rest => if k = key then some v else dictGet rest key

/-- Python subscript `v[key]` with a string key: KeyError on a dict
missing the key, TypeError on non-dict values. -/
def pySubscript (v : PyVal) (key : String) : Except PyErr PyVal :=
  match v with
  | .dict fs =>
      match dictGet fs key with
      | some x => .ok x
      | Option.none => .error (.keyError key)
  | .str _ => .error (.typeError "string indices must be integers")
  | .list _ => .error (.typeError "list indices must be integers or slices, not str")
  | v => .error (.typeError ("\x27" ++ v.typeName ++ "\x27 object is not subscriptable"))

/-- Lowercase hex digit. -/
def hexDigitChar (n : Nat) : Char :=
  if n < 10 then Char.ofNat (48 + n) else Char.ofNat (87 + n)

/-- Two lowercase hex digits. -/
def hex2 (n : Nat) : String :=
  String.mk [hexDigitChar (n / 16 % 16), hexDigitChar (n % 16)]

/-- Four lowercase hex digits. -/
def hex4 (n : Nat) : String :=
  String.mk [hexDigitChar (n / 4096 % 16), hexDigitChar (n / 256 % 16),
             hexDigitChar (n / 16 % 16), hexDigitChar (n % 16)]

/-- One character of a Python string repr, escaped for quote character
`q` as CPython does: backslash, the quote, newline, carriage return and
tab get two-character escapes, other control characters get a hex
escape. -/
def reprEscapeChar (q : Char) (c : Char) : String :=
  if c = '\\' then "\\\\"
  else if c = q then "\\" ++ String.singleton q
  else if c = '\n' then "\\n"
  else if c = '\x0d' then "\\r"
  else if c = '\t' then "\\t"
  else if c.toNat < 0x20 ∨ c.toNat = 0x7f then "\\x" ++ hex2 c.toNat
  else String.singleton c

/-- Python `repr` of a string: single quotes, unless the string contains
a single quote and no double quote, in which case double quotes. -/
def strRepr (s : String) : String :=
  let q : Char := if '\x27' ∈ s.data ∧ '\x22' ∉ s.data then '\x22' else '\x27'
  String.singleton q ++ String.join (s.data.map (reprEscapeChar q)) ++ String.singleton q

mutual

/-- Python `repr` of a value. -/
def pyRepr : PyVal → String
  | .str s => strRepr s
  | .int n => toString n
  | .bool b => if b then "True" else "False"
  | .none => "None"
  | .list xs => "[" ++ pyReprList xs ++ "]"
  | .dict fs => "\x7b" ++ pyReprFields fs ++ "\x7d"

/-- Comma-separated reprs of list elements. -/
def pyReprList : List PyVal → String
  | [] => ""
  | [x] => pyRepr x
  | x :: y :: rest => pyRepr x ++ ", " ++ pyReprList (y :: rest)

/-- Comma-separated `key: value` reprs of dict entries. -/
def pyReprFields : List (String × PyVal) → String
  | [] => ""
  | [(k, v)] => strRepr k ++ ": " ++ pyRepr v
  | (k, v) :: p :: rest => strRepr k ++ ": " ++ pyRepr v ++ ", " ++ pyReprFields (p :: rest)

end

/-- Python `str` of a value (as used by f-string interpolation): a string
formats as itself, every other value as its repr (which coincides with
`str` on ints, bools, None, lists and dicts). -/
def pyStr : PyVal → String
  | .str s => s
  | v => pyRepr v

/-- One character of a JSON string literal, escaped as `json.dumps` does
with its default `ensure_ascii=True`: quote, backslash and the usual
control shorthands get two-character escapes; other control characters
and all non-ASCII characters get `\uXXXX` escapes (surrogate pairs
beyond the BMP). -/
def jsonEscapeChar (c : Char) : String :=
  if c = '\x22' then "\\\""
  else if c = '\\' then "\\\\"
  else if c = '\n' then "\\n"
  else if c = '\t' then "\\t"
  else if c = '\x0d' then "\\r"
  else if c = '\x08' then "\\b"
  else if c = '\x0c' then "\\f"
  else if c.toNat < 0x20 ∨ 0x7e < c.toNat then
    if c.toNat < 0x10000 then "\\u" ++ hex4 c.toNat
    else
      "\\u" ++ hex4 (0xd800 + (c.toNat - 0x10000) / 0x400) ++
      "\\u" ++ hex4 (0xdc00 + (c.toNat - 0x10000) % 0x400)
  else String.singleton c

/-- JSON string literal for `s`. -/
def jsonStrLit (s : String) : String :=
  "\"" ++ String.join (s.data.map jsonEscapeChar) ++ "\""

mutual

/-- Python `json.dumps` with default separators (`", "` between items,
`": "` after keys). Total on `PyVal`: every constructor is
serializable. -/
def jsonDumps : PyVal → String
  | .str s => jsonStrLit s
  | .int n => toString n
  | .bool b => if b then "true" else "false"
  | .none => "null"
  | .list xs => "[" ++ jsonDumpsList xs ++ "]"
  | .dict fs => "\x7b" ++ jsonDumpsFields fs ++ "\x7d"

/-- Comma-separated JSON renderings of list elements. -/
def jsonDumpsList : List PyVal → String
  | [] => ""
  | [x] => jsonDumps x
  | x :: y :: rest => jsonDumps x ++ ", " ++ jsonDumpsList (y :: rest)

/-- Comma-separated `"key": value` JSON renderings of dict entries. -/
def jsonDumpsFields : List (String × PyVal) → String
  | [] => ""
  | [(k, v)] => jsonStrLit k ++ ": " ++ jsonDumps v
  | (k, v) :: p :: rest => jsonStrLit k ++ ": " ++ jsonDumps v ++ ", " ++ jsonDumpsFields (p :: rest)

end

example : jsonDumps (.dict [("code", .str "def reverse(s): return s[::-1]")]) =
    "\x7b\"code\": \"def reverse(s): return s[::-1]\"\x7d" := by rfl

example : jsonDumps (.dict [("error", .str "a\"b\\c")]) =
    "\x7b\"error\": \"a\\\"b\\\\c\"\x7d" := by rfl

example : pyStr (.list [.int 1, .str "a", .none]) = "[1, \x27a\x27, None]" := by rfl

/-! ### Module-level constants of `lambda_function.py` -/

def REGION : String := "eu-north-1"

def CODER_MODEL_ID : String := "qwen.qwen3-coder-480b-a35b-v1:0"

def PROMPT_CODE_SECTION_DELIMITER : String := "\n###\n"

/-- The fixed system instruction passed on every `converse` call. -/
def SYSTEM_INSTRUCTION : String := "You are a lead software engineer. Be clear and concise."

/-! ### The inference service as an oracle

`bedrock_runtime.converse` is an external network call.  We model the
service as a function from the submitted conversation (the `messages`
argument, the only varying part of the request: `modelId`, `system` and
`inferenceConfig` are the fixed constants above) to either a response
value or a raised exception. -/

/-- Behaviour of the external inference service on one call. -/
abbrev Service : Type := List PyVal → Except PyErr PyVal

/-- Model of `_call_bedrock(messages)`: submit the conversation to the service
together with the fixed model id, system instruction and inference
configuration. -/
def _call_bedrock (svc : Service) (messages : List PyVal) : Except PyErr PyVal :=
  svc messages

/-! ### `_extract_text` -/

/-- The generator scan inside `_extract_text`:
`next((b["text"] for b in content if isinstance(b, dict) and "text" in b), "")`.
The guard `isinstance(b, dict) and "text" in b` is tested first; only
then is the subscript `b["text"]` evaluated (which the guard makes
safe). -/
def firstTextBlock : List PyVal → Except PyErr PyVal
  | [] => .ok (.str "")
  | b :: rest =>
      match b with
      | .dict fs =>
          if (dictGet fs "text").isSome then pySubscript (.dict fs) "text"
          else firstTextBlock rest
      | _ => firstTextBlock rest

/-- Iteration of the `content` value by the generator: a missing key
defaulted to `[]` yields the empty scan; a list is scanned block by
block; iterating a string or a dict yields strings (characters resp.
keys), which the `isinstance(b, dict)` guard filters out; iterating an
int, bool or None raises TypeError. -/
def extractFromContent : Option PyVal → Except PyErr PyVal
  | Option.none => .ok (.str "")
  | some (.list xs) => firstTextBlock xs
  | some (.str _) => .ok (.str "")
  | some (.dict _) => .ok (.str "")
  | some v => .error (.typeError ("\x27" ++ v.typeName ++ "\x27 object is not iterable"))

/-- Model of `_extract_text(message)`: `content = message.get("content", [])`,
then the generator scan above.  Calling `.get` on a non-dict raises
AttributeError. -/
def _extract_text (message : PyVal) : Except PyErr PyVal :=
  match message with
  | .dict fs => extractFromContent (dictGet fs "content")
  | v => .error (.attributeError ("\x27" ++ v.typeName ++ "\x27 object has no attribute \x27get\x27"))

/-! ### `generate_code_using_bedrock` -/

/-- The step-decomposition prompt (the `task_analysis_prompt` local).
The two arguments are the values bound from the event; f-string
interpolation applies Python `str` to them. -/
def task_analysis_prompt (message code_language : PyVal) : String :=
  "Analyze the following request and determine the necessary steps to accomplish it in "
    ++ pyStr code_language ++ ":"
    ++ PROMPT_CODE_SECTION_DELIMITER ++ pyStr message ++ PROMPT_CODE_SECTION_DELIMITER
    ++ "Respond only with a numbered list of steps, nothing else."

/-- The code-generation prompt (the `code_generation_prompt` local);
adjacent string literals in the source concatenate without spaces. -/
def code_generation_prompt (code_language : PyVal) : String :=
  "Generate the " ++ pyStr code_language ++ " code according to the previously defined steps."
    ++ "Take your time to ensure accuracy and completeness."
    ++ "Respond only with the generated code, nothing else."

/-- A user turn as built in the source:
`{"role": "user", "content": [{"text": t}]}`. -/
def userTurn (t : String) : PyVal :=
  .dict [("role", .str "user"), ("content", .list [.dict [("text", .str t)]])]

/-- Evaluation of `response["output"]["message"]`: two subscripts in sequence. -/
def outputMessage (response : PyVal) : Except PyErr PyVal :=
  match pySubscript response "output" with
  | .error e => .error e
  | .ok out => pySubscript out "message"

/-- Model of `generate_code_using_bedrock(message, code_language)`.

Returns the value of the Python function (`Except` models raising: the
`except ClientError` clause in the source logs and re-raises, so every
exception propagates) paired with the list of conversations submitted to
the inference service, in order, for claims about service calls. -/
def generate_code_using_bedrock (svc : Service) (message code_language : PyVal) :
    Except PyErr PyVal × List (List PyVal) :=
  match _call_bedrock svc [userTurn (task_analysis_prompt message code_language)] with
  | .error e => (.error e, [[userTurn (task_analysis_prompt message code_language)]])
  | .ok resp1 =>
      match outputMessage resp1 with
      | .error e => (.error e, [[userTurn (task_analysis_prompt message code_language)]])
      | .ok reply1 =>
          match _call_bedrock svc
              [userTurn (task_analysis_prompt message code_language), reply1,
               userTurn (code_generation_prompt code_language)] with
          | .error e =>
              (.error e,
               [[userTurn (task_analysis_prompt message code_language)],
                [userTurn (task_analysis_prompt message code_language), reply1,
                 userTurn (code_generation_prompt code_language)]])
          | .ok resp2 =>
              match outputMessage resp2 with
              | .error e =>
                  (.error e,
                   [[userTurn (task_analysis_prompt message code_language)],
                    [userTurn (task_analysis_prompt message code_language), reply1,
                     userTurn (code_generation_prompt code_language)]])
              | .ok reply2 =>
                  (_extract_text reply2,
                   [[userTurn (task_analysis_prompt message code_language)],
                    [userTurn (task_analysis_prompt message code_language), reply1,
                     userTurn (code_generation_prompt code_language)]])

/-! ### `lambda_handler` -/

/-- Model of `lambda_handler(event, context)`.

The event is a string-keyed dict.  Returns the response dict paired with
the list of conversations submitted to the inference service (empty when
validation fails before any call).  The `try` block in the source wraps
everything; the only code that can raise inside it is the call to
`generate_code_using_bedrock` (dict membership tests and `json.dumps` of
string-valued dicts cannot), so the `except Exception` clause is modelled
on the result of that call. -/
def lambda_handler (svc : Service) (event : List (String × PyVal)) :
    PyVal × List (List PyVal) :=
  match dictGet event "message" with
  | Option.none =>
      (.dict [("statusCode", .int 400),
              ("body", .str (jsonDumps (.dict [("error", .str "Missing required parameter: message")])))],
       [])
  | some message =>
      match dictGet event "code_language" with
      | Option.none =>
          (.dict [("statusCode", .int 400),
                  ("body", .str (jsonDumps (.dict [("error", .str "Missing required parameter: code_language")])))],
           [])
      | some code_language =>
          match generate_code_using_bedrock svc message code_language with
          | (.ok generated_code, trace) =>
              (.dict [("statusCode", .int 200),
                      ("body", .str (jsonDumps (.dict [("code", generated_code)])))],
               trace)
          | (.error e, trace) =>
              (.dict [("statusCode", .int 500),
                      ("body", .str (jsonDumps (.dict [("error", .str e.toStr)])))],
               trace)

/-! ### Observation helpers and concrete service stubs -/

/-- The `statusCode` field of a response dict. -/
def responseStatus (response : PyVal) : Option PyVal :=
  match response with
  | .dict fs => dictGet fs "statusCode"
  | _ => Option.none

/-- The `body` field of a response dict, when it is a string. -/
def responseBodyStr (response : PyVal) : Option String :=
  match response with
  | .dict fs =>
      match dictGet fs "body" with
      | some (.str s) => some s
      | _ => Option.none
  | _ => Option.none

/-- A well-shaped assistant reply whose single content block carries
text `t`. -/
def assistantReply (t : String) : PyVal :=
  .dict [("role", .str "assistant"), ("content", .list [.dict [("text", .str t)]])]

/-- A well-shaped converse response wrapping `assistantReply t`. -/
def converseResponse (t : String) : PyVal :=
  .dict [("output", .dict [("message", assistantReply t)])]

/-- Deterministic service stub: the first call (a one-turn conversation)
gets step-list text, any later call gets code text. -/
def svcSteps : Service := fun msgs =>
  if msgs.length = 1 then .ok (converseResponse "1. Reverse the string using slicing")
  else .ok (converseResponse "def reverse(s): return s[::-1]")

/-- Service stub that fails every call. -/
def svcErr : Service := fun _ => .error (.clientError "bedrock unavailable")

example :
    (lambda_handler svcSteps
      [("message", .str "reverse a string"), ("code_language", .str "Python")]).1 =
    .dict [("statusCode", .int 200),
           ("body", .str "\x7b\"code\": \"def reverse(s): return s[::-1]\"\x7d")] := by rfl

example : (lambda_handler svcSteps []).1 =
    .dict [("statusCode", .int 400),
           ("body", .str "\x7b\"error\": \"Missing required parameter: message\"\x7d")] := by rfl

example : (lambda_handler svcErr
    [("message", .str "x"), ("code_language", .str "Python")]).1 =
    .dict [("statusCode", .int 500),
           ("body", .str "\x7b\"error\": \"bedrock unavailable\"\x7d")] := by rfl

/-! ### Helper lemmas -/

/-- The `text` value a content block contributes: for a dict, its
`"text"` entry; non-dict blocks contribute nothing (the generator guard
`isinstance(b, dict)` excludes them). -/
def textBlockValue (b : PyVal) : Option PyVal :=
  match b with
  | .dict fs => dictGet fs "text"
  | _ => Option.none

theorem firstTextBlock_cons_none (b : PyVal) (rest : List PyVal)
    (h : textBlockValue b = Option.none) :
    firstTextBlock (b :: rest) = firstTextBlock rest := by
  cases b with
  | dict fs =>
      simp only [textBlockValue] at h
      simp [firstTextBlock, h]
  | str s => rfl
  | int n => rfl
  | bool b => rfl
  | none => rfl
  | list xs => rfl

theorem firstTextBlock_cons_some (b : PyVal) (rest : List PyVal) (v : PyVal)
    (h : textBlockValue b = some v) :
    firstTextBlock (b :: rest) = .ok v := by
  cases b with
  | dict fs =>
      simp only [textBlockValue] at h
      simp [firstTextBlock, h, pySubscript]
  | str s => exact Option.noConfusion h
  | int n => exact Option.noConfusion h
  | bool b => exact Option.noConfusion h
  | none => exact Option.noConfusion h
  | list xs => exact Option.noConfusion h

theorem firstTextBlock_of_all_none (xs : List PyVal)
    (h : ∀ x ∈ xs, textBlockValue x = Option.none) :
    firstTextBlock xs = .ok (.str "") := by
  induction xs with
  | nil => rfl
  | cons b rest ih =>
      rw [firstTextBlock_cons_none b rest (h b (List.mem_cons_self b rest))]
      exact ih fun x hx => h x (List.mem_cons_of_mem b hx)

theorem firstTextBlock_append_none (pre rest : List PyVal)
    (h : ∀ x ∈ pre, textBlockValue x = Option.none) :
    firstTextBlock (pre ++ rest) = firstTextBlock rest := by
  induction pre with
  | nil => rfl
  | cons b tl ih =>
      rw [List.cons_append,
          firstTextBlock_cons_none b (tl ++ rest) (h b (List.mem_cons_self b tl))]
      exact ih fun x hx => h x (List.mem_cons_of_mem b hx)

theorem firstTextBlock_isOk (xs : List PyVal) :
    ∃ v, firstTextBlock xs = .ok v := by
  induction xs with
  | nil => exact ⟨.str "", rfl⟩
  | cons b rest ih =>
      cases hb : textBlockValue b with
      | none => rw [firstTextBlock_cons_none b rest hb]; exact ih
      | some v => exact ⟨v, firstTextBlock_cons_some b rest v hb⟩

/-- The first conversation submitted by the generation routine is always
the single step-decomposition user turn, whatever the service does. -/
theorem generate_trace_head (svc : Service) (message code_language : PyVal) :
    (generate_code_using_bedrock svc message code_language).2.head? =
      some [userTurn (task_analysis_prompt message code_language)] := by
  cases h1 : svc [userTurn (task_analysis_prompt message code_language)] with
  | error e => simp [generate_code_using_bedrock, _call_bedrock, h1]
  | ok resp1 =>
      cases h2 : outputMessage resp1 with
      | error e => simp [generate_code_using_bedrock, _call_bedrock, h1, h2]
      | ok reply1 =>
          cases h3 : svc [userTurn (task_analysis_prompt message code_language), reply1,
              userTurn (code_generation_prompt code_language)] with
          | error e => simp [generate_code_using_bedrock, _call_bedrock, h1, h2, h3]
          | ok resp2 =>
              cases h4 : outputMessage resp2 with
              | error e => simp [generate_code_using_bedrock, _call_bedrock, h1, h2, h3, h4]
              | ok reply2 => simp [generate_code_using_bedrock, _call_bedrock, h1, h2, h3, h4]

/-- Case analysis on the generation routine: either it succeeds having
made exactly two calls, the first being the step-decomposition turn, or
it fails with some exception. -/
theorem generate_cases (svc : Service) (message code_language : PyVal) :
    (∃ c b1, generate_code_using_bedrock svc message code_language =
        (.ok c, [[userTurn (task_analysis_prompt message code_language)], b1])) ∨
    (∃ e t, generate_code_using_bedrock svc message code_language = (.error e, t)) := by
  cases h1 : svc [userTurn (task_analysis_prompt message code_language)] with
  | error e =>
      refine Or.inr ⟨e, [[userTurn (task_analysis_prompt message code_language)]], ?_⟩
      simp [generate_code_using_bedrock, _call_bedrock, h1]
  | ok resp1 =>
      cases h2 : outputMessage resp1 with
      | error e =>
          refine Or.inr ⟨e, [[userTurn (task_analysis_prompt message code_language)]], ?_⟩
          simp [generate_code_using_bedrock, _call_bedrock, h1, h2]
      | ok reply1 =>
          cases h3 : svc [userTurn (task_analysis_prompt message code_language), reply1,
              userTurn (code_generation_prompt code_language)] with
          | error e =>
              refine Or.inr ⟨e, [[userTurn (task_analysis_prompt message code_language)],
                [userTurn (task_analysis_prompt message code_language), reply1,
                 userTurn (code_generation_prompt code_language)]], ?_⟩
              simp [generate_code_using_bedrock, _call_bedrock, h1, h2, h3]
          | ok resp2 =>
              cases h4 : outputMessage resp2 with
              | error e =>
                  refine Or.inr ⟨e, [[userTurn (task_analysis_prompt message code_language)],
                    [userTurn (task_analysis_prompt message code_language), reply1,
                     userTurn (code_generation_prompt code_language)]], ?_⟩
                  simp [generate_code_using_bedrock, _call_bedrock, h1, h2, h3, h4]
              | ok reply2 =>
                  cases hx : _extract_text reply2 with
                  | error e =>
                      refine Or.inr ⟨e, [[userTurn (task_analysis_prompt message code_language)],
                        [userTurn (task_analysis_prompt message code_language), reply1,
                         userTurn (code_generation_prompt code_language)]], ?_⟩
                      simp [generate_code_using_bedrock, _call_bedrock, h1, h2, h3, h4, hx]
                  | ok c =>
                      refine Or.inl ⟨c,
                        [userTurn (task_analysis_prompt message code_language), reply1,
                         userTurn (code_generation_prompt code_language)], ?_⟩
                      simp [generate_code_using_bedrock, _call_bedrock, h1, h2, h3, h4, hx]

/-! ### Claim theorems -/

/-- C1: with both fields present and an inference service that returns a
well-shaped reply, the generation routine issues exactly two calls, and
the conversation submitted on the second call is exactly three turns in
order: the step-decomposition user turn, the first reply message
appended unchanged, and the code-generation user turn. -/
theorem C1_two_calls_second_conversation
    (svc : Service) (message code_language resp1 reply1 : PyVal)
    (h1 : svc [userTurn (task_analysis_prompt message code_language)] = .ok resp1)
    (h2 : outputMessage resp1 = .ok reply1) :
    (generate_code_using_bedrock svc message code_language).2 =
      [[userTurn (task_analysis_prompt message code_language)],
       [userTurn (task_analysis_prompt message code_language), reply1,
        userTurn (code_generation_prompt code_language)]] := by
  cases h3 : svc [userTurn (task_analysis_prompt message code_language), reply1,
      userTurn (code_generation_prompt code_language)] with
  | error e => simp [generate_code_using_bedrock, _call_bedrock, h1, h2, h3]
  | ok resp2 =>
      cases h4 : outputMessage resp2 with
      | error e => simp [generate_code_using_bedrock, _call_bedrock, h1, h2, h3, h4]
      | ok reply2 => simp [generate_code_using_bedrock, _call_bedrock, h1, h2, h3, h4]

theorem C1_witness :
    (generate_code_using_bedrock svcSteps (.str "reverse a string") (.str "Python")).2 =
      [[userTurn (task_analysis_prompt (.str "reverse a string") (.str "Python"))],
       [userTurn (task_analysis_prompt (.str "reverse a string") (.str "Python")),
        assistantReply "1. Reverse the string using slicing",
        userTurn (code_generation_prompt (.str "Python"))]] :=
  C1_two_calls_second_conversation svcSteps (.str "reverse a string") (.str "Python")
    (converseResponse "1. Reverse the string using slicing")
    (assistantReply "1. Reverse the string using slicing") rfl rfl

/-- C2: an event without the key "message" yields status 400 with body
`{"error": "Missing required parameter: message"}` and the inference
service is never invoked (the call trace is empty). -/
theorem C2_missing_message (svc : Service) (event : List (String × PyVal))
    (h : dictGet event "message" = Option.none) :
    lambda_handler svc event =
      (.dict [("statusCode", .int 400),
              ("body", .str "\x7b\"error\": \"Missing required parameter: message\"\x7d")],
       []) := by
  unfold lambda_handler
  rw [h]
  rfl

theorem C2_witness :
    lambda_handler svcSteps [("code_language", .str "Python")] =
      (.dict [("statusCode", .int 400),
              ("body", .str "\x7b\"error\": \"Missing required parameter: message\"\x7d")],
       []) :=
  C2_missing_message svcSteps [("code_language", .str "Python")] rfl

/-- C3 counterexample: on the empty event, which lacks both keys, the
handler does return status 400 but the body is the "message" error,
which is not the claimed "code_language" error body and does not even
mention the substring "code_language". -/
theorem C3_counterexample :
    responseStatus (lambda_handler svcSteps []).1 = some (.int 400) ∧
    responseBodyStr (lambda_handler svcSteps []).1 =
      some "\x7b\"error\": \"Missing required parameter: message\"\x7d" ∧
    ¬ responseBodyStr (lambda_handler svcSteps []).1 =
      some "\x7b\"error\": \"Missing required parameter: code_language\"\x7d" ∧
    ¬ List.IsInfix "code_language".data
      "\x7b\"error\": \"Missing required parameter: message\"\x7d".data := by
  refine ⟨rfl, rfl, ?_, ?_⟩
  · decide
  · decide

/-- C3 amended: every event missing "code_language" gets status 400, and
when "message" is present the body is exactly
`{"error": "Missing required parameter: code_language"}` (when "message"
is missing too, the earlier check wins and the body names "message"
instead). -/
theorem C3_missing_code_language (svc : Service) (event : List (String × PyVal))
    (h : dictGet event "code_language" = Option.none) :
    responseStatus (lambda_handler svc event).1 = some (.int 400) ∧
    (∀ v, dictGet event "message" = some v →
      lambda_handler svc event =
        (.dict [("statusCode", .int 400),
                ("body", .str "\x7b\"error\": \"Missing required parameter: code_language\"\x7d")],
         [])) := by
  cases hm : dictGet event "message" with
  | none =>
      constructor
      · unfold lambda_handler
        rw [hm]
        rfl
      · intro v hv
        exact Option.noConfusion hv
  | some vm =>
      constructor
      · unfold lambda_handler
        rw [hm, h]
        rfl
      · intro v hv
        unfold lambda_handler
        rw [hm, h]
        rfl

theorem C3_amended_witness :
    responseStatus (lambda_handler svcSteps [("message", .str "hi")]).1 = some (.int 400) ∧
    lambda_handler svcSteps [("message", .str "hi")] =
      (.dict [("statusCode", .int 400),
              ("body", .str "\x7b\"error\": \"Missing required parameter: code_language\"\x7d")],
       []) :=
  ⟨(C3_missing_code_language svcSteps [("message", .str "hi")] rfl).1,
   (C3_missing_code_language svcSteps [("message", .str "hi")] rfl).2 (.str "hi") rfl⟩

/-- C4: the extraction helper returns the "text" field of the first
content block that has one, even when later blocks also carry text, and
returns the empty string when the content list is empty or has no
text-bearing block. -/
theorem C4_extract_first_text_block :
    (∀ (fs : List (String × PyVal)) (pre : List PyVal) (b : PyVal)
        (post : List PyVal) (v : PyVal),
        dictGet fs "content" = some (.list (pre ++ b :: post)) →
        (∀ x ∈ pre, textBlockValue x = Option.none) →
        textBlockValue b = some v →
        _extract_text (.dict fs) = .ok v) ∧
    (∀ (fs : List (String × PyVal)) (xs : List PyVal),
        dictGet fs "content" = some (.list xs) →
        (∀ x ∈ xs, textBlockValue x = Option.none) →
        _extract_text (.dict fs) = .ok (.str "")) := by
  constructor
  · intro fs pre b post v hc hpre hb
    show extractFromContent (dictGet fs "content") = .ok v
    rw [hc]
    show firstTextBlock (pre ++ b :: post) = .ok v
    rw [firstTextBlock_append_none pre (b :: post) hpre]
    exact firstTextBlock_cons_some b post v hb
  · intro fs xs hc hnone
    show extractFromContent (dictGet fs "content") = .ok (.str "")
    rw [hc]
    show firstTextBlock xs = .ok (.str "")
    exact firstTextBlock_of_all_none xs hnone

theorem C4_witness :
    _extract_text (.dict [("content", .list
        [.int 7, .dict [("type", .str "image")],
         .dict [("text", .str "hello")], .dict [("text", .str "second")]])]) =
      .ok (.str "hello") ∧
    _extract_text (.dict [("content", .list [])]) = .ok (.str "") :=
  ⟨C4_extract_first_text_block.1
      [("content", .list [.int 7, .dict [("type", .str "image")],
        .dict [("text", .str "hello")], .dict [("text", .str "second")]])]
      [.int 7, .dict [("type", .str "image")]]
      (.dict [("text", .str "hello")])
      [.dict [("text", .str "second")]]
      (.str "hello") rfl
      (by
        intro x hx
        simp only [List.mem_cons, List.not_mem_nil, or_false] at hx
        rcases hx with rfl | rfl <;> rfl)
      rfl,
   C4_extract_first_text_block.2 [("content", .list [])] [] rfl
      (by intro x hx; exact absurd hx (List.not_mem_nil x))⟩

/-- C5: the extraction helper is total on messages whose content is a
list: whatever malformed blocks the list holds, it returns a value and
never raises. -/
theorem C5_extract_total_on_block_lists
    (fs : List (String × PyVal)) (xs : List PyVal)
    (h : dictGet fs "content" = some (.list xs)) :
    ∃ v, _extract_text (.dict fs) = .ok v := by
  show ∃ v, extractFromContent (dictGet fs "content") = .ok v
  rw [h]
  exact firstTextBlock_isOk xs

theorem C5_witness :
    ∃ v, _extract_text (.dict [("content", .list
        [.none, .int 3, .list [], .bool true, .dict [("k", .bool true)]])]) = .ok v :=
  C5_extract_total_on_block_lists
    [("content", .list [.none, .int 3, .list [], .bool true, .dict [("k", .bool true)]])]
    [.none, .int 3, .list [], .bool true, .dict [("k", .bool true)]] rfl

/-- Service stub returning a response without the "output" key, so the
second subscript of the routine raises KeyError. -/
def svcBadShape : Service := fun _ => .ok (.dict [("result", .str "oops")])

/-- C6: when the first inference call raises, the routine issues no
second call and the failure propagates, the handler answers 500; and no
partial-success state exists: with both fields present, every handler
result is either a 200 produced after exactly two service calls or a
500. -/
theorem C6_first_call_failure_atomic
    (svc : Service) (event : List (String × PyVal)) (vm vl : PyVal) (e : PyErr)
    (hm : dictGet event "message" = some vm)
    (hl : dictGet event "code_language" = some vl)
    (hfail : svc [userTurn (task_analysis_prompt vm vl)] = .error e) :
    generate_code_using_bedrock svc vm vl =
      (.error e, [[userTurn (task_analysis_prompt vm vl)]]) ∧
    lambda_handler svc event =
      (.dict [("statusCode", .int 500),
              ("body", .str (jsonDumps (.dict [("error", .str e.toStr)])))],
       [[userTurn (task_analysis_prompt vm vl)]]) ∧
    (∀ svc2 : Service,
        (responseStatus (lambda_handler svc2 event).1 = some (.int 200) ∧
         (lambda_handler svc2 event).2.length = 2) ∨
        responseStatus (lambda_handler svc2 event).1 = some (.int 500)) := by
  have hgen : generate_code_using_bedrock svc vm vl =
      (.error e, [[userTurn (task_analysis_prompt vm vl)]]) := by
    simp [generate_code_using_bedrock, _call_bedrock, hfail]
  refine ⟨hgen, ?_, ?_⟩
  · simp only [lambda_handler, hm, hl, hgen]
  · intro svc2
    rcases generate_cases svc2 vm vl with ⟨c, b1, hg⟩ | ⟨e2, t2, hg⟩
    · left
      constructor
      · simp [lambda_handler, hm, hl, hg, responseStatus, dictGet]
      · simp [lambda_handler, hm, hl, hg]
    · right
      simp [lambda_handler, hm, hl, hg, responseStatus, dictGet]

theorem C6_witness :
    generate_code_using_bedrock svcErr (.str "reverse a string") (.str "Python") =
      (.error (.clientError "bedrock unavailable"),
       [[userTurn (task_analysis_prompt (.str "reverse a string") (.str "Python"))]]) ∧
    lambda_handler svcErr
        [("message", .str "reverse a string"), ("code_language", .str "Python")] =
      (.dict [("statusCode", .int 500),
              ("body", .str "\x7b\"error\": \"bedrock unavailable\"\x7d")],
       [[userTurn (task_analysis_prompt (.str "reverse a string") (.str "Python"))]]) :=
  ⟨(C6_first_call_failure_atomic svcErr
      [("message", .str "reverse a string"), ("code_language", .str "Python")]
      (.str "reverse a string") (.str "Python") (.clientError "bedrock unavailable")
      rfl rfl rfl).1,
   (C6_first_call_failure_atomic svcErr
      [("message", .str "reverse a string"), ("code_language", .str "Python")]
      (.str "reverse a string") (.str "Python") (.clientError "bedrock unavailable")
      rfl rfl rfl).2.1⟩

/-- C7: with both fields present, every exception raised inside the
generation routine is caught by the handler and converted to status 500
with body `{"error": d}` where d is the exception description string. -/
theorem C7_internal_failure_500
    (svc : Service) (event : List (String × PyVal)) (vm vl : PyVal)
    (e : PyErr) (t : List (List PyVal))
    (hm : dictGet event "message" = some vm)
    (hl : dictGet event "code_language" = some vl)
    (hrun : generate_code_using_bedrock svc vm vl = (.error e, t)) :
    lambda_handler svc event =
      (.dict [("statusCode", .int 500),
              ("body", .str (jsonDumps (.dict [("error", .str e.toStr)])))],
       t) := by
  simp only [lambda_handler, hm, hl, hrun]

theorem C7_witness :
    lambda_handler svcBadShape [("message", .str "m"), ("code_language", .str "L")] =
      (.dict [("statusCode", .int 500),
              ("body", .str "\x7b\"error\": \"\x27output\x27\"\x7d")],
       [[userTurn (task_analysis_prompt (.str "m") (.str "L"))]]) :=
  C7_internal_failure_500 svcBadShape [("message", .str "m"), ("code_language", .str "L")]
    (.str "m") (.str "L") (.keyError "output")
    [[userTurn (task_analysis_prompt (.str "m") (.str "L"))]] rfl rfl rfl

/-- C8: the fully concrete example: event
`{"message": "reverse a string", "code_language": "Python"}` with the
deterministic stub yields exactly statusCode 200 and body
`{"code": "def reverse(s): return s[::-1]"}`. -/
theorem C8_example_end_to_end :
    (lambda_handler svcSteps
        [("message", .str "reverse a string"), ("code_language", .str "Python")]).1 =
      .dict [("statusCode", .int 200),
             ("body", .str "\x7b\"code\": \"def reverse(s): return s[::-1]\"\x7d")] := by
  rfl

/-- C9: whatever the service does, the first conversation submitted is a
single user turn whose text instructs the model to respond only with a
numbered list of steps for the target language, with the request text
delimited on both sides by the same fixed sentinel
`PROMPT_CODE_SECTION_DELIMITER`. -/
theorem C9_step_prompt_structure (svc : Service) (message code_language : String) :
    (generate_code_using_bedrock svc (.str message) (.str code_language)).2.head? =
      some [userTurn
        ("Analyze the following request and determine the necessary steps to accomplish it in "
          ++ code_language ++ ":"
          ++ PROMPT_CODE_SECTION_DELIMITER ++ message ++ PROMPT_CODE_SECTION_DELIMITER
          ++ "Respond only with a numbered list of steps, nothing else.")] := by
  rw [generate_trace_head]
  rfl

/-- C10: validation tests key presence only: whenever both keys are
present, with values of any type, the handler hands exactly those values
to the generation routine and wraps its outcome (so the result is never
a 400). -/
theorem C10_validation_presence_only
    (svc : Service) (event : List (String × PyVal)) (vm vl : PyVal)
    (hm : dictGet event "message" = some vm)
    (hl : dictGet event "code_language" = some vl) :
    lambda_handler svc event =
      (match generate_code_using_bedrock svc vm vl with
       | (.ok c, t) =>
           (.dict [("statusCode", .int 200),
                   ("body", .str (jsonDumps (.dict [("code", c)])))], t)
       | (.error e, t) =>
           (.dict [("statusCode", .int 500),
                   ("body", .str (jsonDumps (.dict [("error", .str e.toStr)])))], t)) ∧
    responseStatus (lambda_handler svc event).1 ≠ some (.int 400) := by
  constructor
  · cases hgen : generate_code_using_bedrock svc vm vl with
    | mk r t =>
        cases r with
        | ok c => simp only [lambda_handler, hm, hl, hgen]
        | error e => simp only [lambda_handler, hm, hl, hgen]
  · rcases generate_cases svc vm vl with ⟨c, b1, hg⟩ | ⟨e2, t2, hg⟩
    · simp [lambda_handler, hm, hl, hg, responseStatus, dictGet]
    · simp [lambda_handler, hm, hl, hg, responseStatus, dictGet]

theorem C10_witness :
    lambda_handler svcSteps [("message", PyVal.none), ("code_language", .int 3)] =
      (match generate_code_using_bedrock svcSteps PyVal.none (.int 3) with
       | (.ok c, t) =>
           (.dict [("statusCode", .int 200),
                   ("body", .str (jsonDumps (.dict [("code", c)])))], t)
       | (.error e, t) =>
           (.dict [("statusCode", .int 500),
                   ("body", .str (jsonDumps (.dict [("error", .str e.toStr)])))], t)) ∧
    responseStatus
        (lambda_handler svcSteps [("message", PyVal.none), ("code_language", .int 3)]).1 ≠
      some (.int 400) :=
  C10_validation_presence_only svcSteps
    [("message", PyVal.none), ("code_language", .int 3)] PyVal.none (.int 3) rfl rfl

end BedrockCodeGen
